import Mathlib

/-!
Verification of the dossier bundling and artifact-generation core
(`i4g.reports.bundle_builder`, `i4g.reports.bundle_metrics`,
`i4g.store.dossier_queue_store`, `i4g.reports.dossier_queue_processor`,
`i4g.reports.dossier_signatures`, `i4g.reports.dossier_pipeline`).

The Python modules are shallowly embedded: pure functions become Lean
functions, the SQLite-backed queue becomes explicit state passing over a
list of rows (rowid order = list order), raised exceptions become
`Except PyErr`.  `decimal.Decimal` is modelled by `PyDecimal` (an exact
rational plus the special values NaN/Infinity; the arithmetic used by the
code never exceeds the 28-digit context precision, so exact rational
addition is faithful).  Timezone-aware `datetime` values are modelled as
seconds since the Unix epoch; `isoformat`/`fromisoformat` round-trips
exactly on such values, so serialized datetimes are carried by a dedicated
payload constructor denoting the ISO string of that instant, and similarly
for `str(Decimal)`.
-/

/-- Python exceptions that the embedded code can raise. -/
inductive PyErr where
  | invalidOperation (msg : String)
  | keyError (key : String)
  | typeError (msg : String)
  | valueError (msg : String)
deriving DecidableEq, Repr

deriving instance DecidableEq for Except

/-- `decimal.Decimal` values: an exact rational, or one of the special
values NaN / +Infinity / -Infinity.  (Signaling NaN is folded into `nan`:
the code never performs an operation that distinguishes them before
raising.) -/
inductive PyDecimal where
  | fin (q : ℚ)
  | nan
  | inf
  | ninf
deriving DecidableEq, Repr

/-- Python `Decimal.__add__` (exact within context precision; NaN
propagates).  Only finite sums are exercised by the bundling code. -/
def PyDecimal.add : PyDecimal → PyDecimal → PyDecimal
  | .fin a, .fin b => .fin (a + b)
  | .nan, _ => .nan
  | _, .nan => .nan
  | .inf, .ninf => .nan
  | .ninf, .inf => .nan
  | .inf, _ => .inf
  | _, .inf => .inf
  | .ninf, _ => .ninf
  | _, .ninf => .ninf

/-- Ordering comparisons on `Decimal` raise `InvalidOperation` when either
operand is a NaN (the default decimal context traps `InvalidOperation`).
This is `a < b`. -/
def PyDecimal.lt : PyDecimal → PyDecimal → Except PyErr Bool
  | .nan, _ => .error (.invalidOperation "comparison involving NaN")
  | _, .nan => .error (.invalidOperation "comparison involving NaN")
  | .fin a, .fin b => .ok (decide (a < b))
  | .ninf, .ninf => .ok false
  | .ninf, _ => .ok true
  | _, .ninf => .ok false
  | .inf, _ => .ok false
  | _, .inf => .ok true

/-- `a >= b` on `Decimal`: raises `InvalidOperation` on NaN operands. -/
def PyDecimal.ge (a b : PyDecimal) : Except PyErr Bool :=
  match a.lt b with
  | .error e => .error e
  | .ok r => .ok (!r)

/-- Python `Decimal.__eq__`: value equality; NaN compares unequal to
everything (including itself) and does not raise. -/
def PyDecimal.pyEq : PyDecimal → PyDecimal → Bool
  | .fin a, .fin b => a == b
  | .inf, .inf => true
  | .ninf, .ninf => true
  | _, _ => false

/-- Characters removed by Python `str.strip()` (ASCII whitespace; the
inputs in scope contain no other whitespace). -/
def isPyWs (c : Char) : Bool :=
  c = ' ' || c = '\t' || c = '\n' || c = '\r' || c = '\x0b' || c = '\x0c'

/-- `str.strip()` on a character list. -/
def stripChars (cs : List Char) : List Char :=
  ((cs.dropWhile isPyWs).reverse.dropWhile isPyWs).reverse

/-- `str.strip()` (implemented over the character list so that it
evaluates inside the kernel). -/
def pyTrim (s : String) : String :=
  String.mk (stripChars s.toList)

/-- ASCII `str.lower()` on one character (the identifiers and keys in
scope are ASCII). -/
def asciiLower (c : Char) : Char :=
  if 'A' ≤ c ∧ c ≤ 'Z' then Char.ofNat (c.toNat + 32) else c

/-- ASCII `str.upper()` on one character. -/
def asciiUpper (c : Char) : Char :=
  if 'a' ≤ c ∧ c ≤ 'z' then Char.ofNat (c.toNat - 32) else c

/-- `str.lower()`. -/
def pyLower (s : String) : String :=
  String.mk (s.toList.map asciiLower)

/-- `str.upper()`. -/
def pyUpper (s : String) : String :=
  String.mk (s.toList.map asciiUpper)

/-- Python string `<`: lexicographic comparison by code point. -/
def chLt : List Char → List Char → Bool
  | [], [] => false
  | [], _ :: _ => true
  | _ :: _, [] => false
  | a :: as, b :: bs =>
      if a.toNat < b.toNat then true
      else if b.toNat < a.toNat then false
      else chLt as bs

/-- Python `a < b` on strings. -/
def pyStrLt (a b : String) : Bool :=
  chLt a.toList b.toList

def isDigitChar (c : Char) : Bool := '0' ≤ c && c ≤ '9'

def digitsToNat (cs : List Char) : Nat :=
  cs.foldl (fun acc c => acc * 10 + (c.toNat - '0'.toNat)) 0

/-- Split a character list at the first `e`/`E` (exponent marker). -/
def splitAtExp (cs : List Char) : List Char × Option (List Char) :=
  match cs.findIdx? (fun c => c = 'e' || c = 'E') with
  | none => (cs, none)
  | some i => (cs.take i, some (cs.drop (i + 1)))

/-- Parse an optional sign, returning `true` for negative. -/
def parseSign : List Char → Bool × List Char
  | '+' :: rest => (false, rest)
  | '-' :: rest => (true, rest)
  | cs => (false, cs)

/-- Parse the coefficient `digits [. [digits]]` of a decimal numeric
string; returns (integer value of all digits, number of fractional
digits). -/
def parseCoefficient (cs : List Char) : Option (Nat × Nat) :=
  match cs.findIdx? (fun c => c = '.') with
  | none =>
      if cs ≠ [] ∧ cs.all isDigitChar then some (digitsToNat cs, 0) else none
  | some i =>
      let intPart := cs.take i
      let fracPart := cs.drop (i + 1)
      if (intPart ≠ [] ∨ fracPart ≠ []) ∧ intPart.all isDigitChar ∧
          fracPart.all isDigitChar ∧ fracPart.all (fun c => c ≠ '.') then
        some (digitsToNat (intPart ++ fracPart), fracPart.length)
      else none

/-- Parse a signed exponent `sign? digits`. -/
def parseExponent (cs : List Char) : Option Int :=
  let (neg, rest) := parseSign cs
  if rest ≠ [] ∧ rest.all isDigitChar then
    some (if neg then -(digitsToNat rest : Int) else (digitsToNat rest : Int))
  else none

/-- The exact rational `(-1)^neg * m * 10^shift` (built with `mkRat` so
that it evaluates inside the kernel). -/
def decValue (neg : Bool) (m : Nat) (shift : Int) : ℚ :=
  let signed : Int := if neg then -(m : Int) else (m : Int)
  if shift ≥ 0 then mkRat (signed * (10 : Int) ^ shift.toNat) 1
  else mkRat signed ((10 : Nat) ^ (-shift).toNat)

/-- The `Decimal(string)` constructor (Python decimal numeric string
syntax: optional surrounding whitespace, sign, coefficient with optional
fraction, optional exponent, or the special values NaN / sNaN /
Infinity).  Returns `none` where Python raises `InvalidOperation`. -/
def pyDecimalOfString (s : String) : Option PyDecimal :=
  let cs := stripChars s.toList
  let (neg, body) := parseSign cs
  let lower := body.map Char.toLower
  if lower = ['i', 'n', 'f'] ∨ lower = ['i', 'n', 'f', 'i', 'n', 'i', 't', 'y'] then
    some (if neg then .ninf else .inf)
  else if (lower.take 3 = ['n', 'a', 'n'] ∧ (lower.drop 3).all isDigitChar) ∨
      (lower.take 4 = ['s', 'n', 'a', 'n'] ∧ (lower.drop 4).all isDigitChar) then
    some .nan
  else
    let (mant, expPart) := splitAtExp body
    match parseCoefficient mant with
    | none => none
    | some (m, fracLen) =>
        let e : Int :=
          match expPart with
          | none => 0
          | some ec =>
              match parseExponent ec with
              | some v => v
              | none => 0
        match expPart with
        | some ec =>
            if (parseExponent ec).isSome then
              some (.fin (decValue neg m (e - (fracLen : Int))))
            else none
        | none =>
            some (.fin (decValue neg m (0 - (fracLen : Int))))

/-- Python objects as they occur in the pipeline's metadata mappings and
JSON payloads.  `pyDec d` denotes the string `str(d)` produced by
serializing a Decimal (re-parsed by `Decimal(...)` to an equal value);
`pyDt t` denotes `datetime.isoformat()` of the instant `t` (seconds since
the Unix epoch, UTC), re-parsed exactly by `datetime.fromisoformat`. -/
inductive PyObj where
  | pyNone
  | pyBool (b : Bool)
  | pyInt (n : Int)
  | pyStr (s : String)
  | pyDec (d : PyDecimal)
  | pyDt (t : Int)
  | pyList (xs : List PyObj)
  | pyDict (entries : List (String × PyObj))

mutual

/-- Python `repr` of a value, as used inside container `str`/`repr`.
Exact for the scalar shapes the claims exercise; Decimal and datetime
reprs are abbreviated (their exact text is never re-parsed by the code,
only required to fail decimal parsing, which any `Decimal('...')` /
`datetime...` text does). -/
def PyObj.reprOf : PyObj → String
  | .pyNone => "None"
  | .pyBool b => if b then "True" else "False"
  | .pyInt n => toString n
  | .pyStr s => "'" ++ s ++ "'"
  | .pyDec _ => "Decimal('...')"
  | .pyDt t => "datetime(" ++ toString t ++ ")"
  | .pyList xs => "[" ++ String.intercalate ", " (reprList xs) ++ "]"
  | .pyDict es => "\x7b" ++ String.intercalate ", " (reprEntries es) ++ "\x7d"

def reprList : List PyObj → List String
  | [] => []
  | x :: xs => PyObj.reprOf x :: reprList xs

def reprEntries : List (String × PyObj) → List String
  | [] => []
  | e :: es => ("'" ++ e.1 ++ "': " ++ PyObj.reprOf e.2) :: reprEntries es

end

/-- Python `str(x)`: like `repr` except strings print verbatim. -/
def PyObj.strOf : PyObj → String
  | .pyStr s => s
  | v => v.reprOf

/-- Python truthiness of a value. -/
def PyObj.isTruthy : PyObj → Bool
  | .pyNone => false
  | .pyBool b => b
  | .pyInt n => n ≠ 0
  | .pyStr s => s ≠ ""
  | .pyDec d => !(d.pyEq (.fin 0))
  | .pyDt _ => true
  | .pyList xs => !xs.isEmpty
  | .pyDict es => !es.isEmpty

/-- A string-keyed mapping with heterogeneous values (`Mapping[str, Any]`). -/
def Metadata : Type := List (String × PyObj)

/-- `mapping.get(key)`: `none` when the key is absent. -/
def metaGet (m : Metadata) (k : String) : Option PyObj :=
  (m.find? (fun e => e.1 == k)).map (fun e => e.2)

/-- `BundleMetrics` — normalized bundling signals (bundle_metrics.py). -/
structure BundleMetrics where
  loss_amount_usd : PyDecimal
  loss_band : String
  jurisdiction : String
  geo_bucket : String
  victim_country : Option String
  offender_country : Option String
  cross_border : Bool
deriving DecidableEq, Repr

/-- `_parse_loss`: first metadata value under the known loss keys that
parses via `Decimal(str(value))`; `None` values are skipped, parse
failures (`InvalidOperation`/`ValueError`/`TypeError`) fall through, and
the fallback is `Decimal("0")`.  A Decimal-typed value round-trips through
`str` to an equal Decimal. -/
def parseLossGo (m : Metadata) : List String → PyDecimal
  | [] => .fin 0
  | k :: ks =>
      match metaGet m k with
      | none => parseLossGo m ks
      | some .pyNone => parseLossGo m ks
      | some (.pyDec d) => d
      | some v =>
          match pyDecimalOfString v.strOf with
          | some d => d
          | none => parseLossGo m ks

def parseLoss (m : Metadata) : PyDecimal :=
  parseLossGo m ["loss_amount_usd", "loss_usd", "loss_amount", "loss"]

/-- `_first_value`: first value under the given keys that is a nonblank
string, stripped. -/
def firstValue (m : Metadata) : List String → Option String
  | [] => none
  | k :: ks =>
      match metaGet m k with
      | some (.pyStr s) => if pyTrim s ≠ "" then some (pyTrim s) else firstValue m ks
      | _ => firstValue m ks

/-- `_normalize_country`. -/
def normalizeCountry : Option String → Option String
  | none => none
  | some v =>
      if v = "" then none
      else
        let normalized := pyUpper (pyTrim v)
        if normalized = "" then none else some normalized

/-- `_derive_geo_bucket`. -/
def deriveGeoBucket (jurisdiction : String) (victim_country : Option String) : String :=
  let token := pyTrim jurisdiction
  if token ≠ "" then
    if token.toList.contains '-' then
      let prefixPart := String.mk (token.toList.takeWhile (fun c => c ≠ '-'))
      if prefixPart ≠ "" then pyUpper prefixPart else pyUpper token
    else pyUpper token
  else
    match victim_country with
    | some v => v
    | none => "UNKNOWN"

/-- `_loss_band`: fixed thresholds.  The `>=` comparisons raise
`InvalidOperation` when the loss is NaN (default decimal context). -/
def lossBand (loss_amount : PyDecimal) : Except PyErr String := do
  if (← loss_amount.ge (.fin 250000)) then return "250k-plus"
  if (← loss_amount.ge (.fin 100000)) then return "100k-250k"
  if (← loss_amount.ge (.fin 50000)) then return "50k-100k"
  if loss_amount.pyEq (.fin 0) then return "unknown"
  return "below-50k"

/-- `compute_bundle_metrics` (bundle_metrics.py lines 38-62). -/
def computeBundleMetrics (metadata : Option Metadata) : Except PyErr BundleMetrics := do
  let payload := metadata.getD []
  let loss_amount := parseLoss payload
  let jurisdiction₀ := firstValue payload
    ["jurisdiction", "victim_jurisdiction", "victim_state", "victim_country"]
  let jurisdiction := pyTrim (jurisdiction₀.getD "unknown")
  let victim_country := normalizeCountry
    (firstValue payload ["victim_country", "victim_state", "jurisdiction_country"])
  let offender_country := normalizeCountry
    (firstValue payload ["offender_country", "scammer_country", "jurisdiction_country"])
  let cross_border := victim_country.isSome && offender_country.isSome &&
    victim_country ≠ offender_country
  let geo_bucket := deriveGeoBucket jurisdiction victim_country
  let loss_band ← lossBand loss_amount
  return {
    loss_amount_usd := loss_amount
    loss_band := loss_band
    jurisdiction := if jurisdiction = "" then "unknown" else jurisdiction
    geo_bucket := geo_bucket
    victim_country := victim_country
    offender_country := offender_country
    cross_border := cross_border
  }

/-- Hinnant's civil-from-days conversion: days since 1970-01-01 to
(year, month, day) in the proleptic Gregorian calendar (the calendar
`datetime.strftime` uses). -/
def civilFromDays (z₀ : Int) : Int × Nat × Nat :=
  let z := z₀ + 719468
  let era : Int := z.fdiv 146097
  let doe : Nat := (z - era * 146097).toNat
  let yoe : Nat := (doe - doe / 1460 + doe / 36524 - doe / 146096) / 365
  let doy : Nat := doe - (365 * yoe + yoe / 4 - yoe / 100)
  let mp : Nat := (5 * doy + 2) / 153
  let d : Nat := doy - (153 * mp + 2) / 5 + 1
  let m : Nat := if mp < 10 then mp + 3 else mp - 9
  let y : Int := (yoe : Int) + era * 400
  (if m ≤ 2 then y + 1 else y, m, d)

/-- Zero-pad a number to the given width. -/
def padNum (width : Nat) (n : Nat) : String :=
  let s := toString n
  String.mk (List.replicate (width - s.length) '0') ++ s

/-- `reference_time.strftime("%Y%m%d")` for an aware UTC datetime modelled
as seconds since the Unix epoch. -/
def strftimeYmd (t : Int) : String :=
  let c := civilFromDays (t.fdiv 86400)
  padNum 4 c.1.toNat ++ padNum 2 c.2.1 ++ padNum 2 c.2.2

/-- A Python sequence of strings, remembering whether it is a `list` or a
`tuple`: Python `==` never equates a list with a tuple, which matters for
the dataclass round-trip. -/
inductive PySeq where
  | pylist (xs : List String)
  | pytuple (xs : List String)
deriving DecidableEq, Repr

/-- The underlying elements (what iteration sees). -/
def PySeq.elems : PySeq → List String
  | .pylist xs => xs
  | .pytuple xs => xs

/-- `DossierCandidate` (bundle_builder.py lines 15-30).  `accepted_at` is
an aware datetime as seconds since the Unix epoch. -/
structure DossierCandidate where
  case_id : String
  loss_amount_usd : PyDecimal
  accepted_at : Int
  jurisdiction : String
  cross_border : Bool := false
  primary_entities : PySeq := .pylist []
deriving DecidableEq, Repr

/-- `DossierCandidate.is_recent`. -/
def DossierCandidate.is_recent (c : DossierCandidate) (recency_days : Int)
    (reference_time : Int) : Bool :=
  c.accepted_at ≥ reference_time - recency_days * 86400

/-- `BundleCriteria` (bundle_builder.py lines 33-41); `jurisdiction_mode`
is one of "single" / "multi" / "global". -/
structure BundleCriteria where
  min_loss_usd : PyDecimal := .fin 50000
  recency_days : Int := 30
  max_cases_per_dossier : Int := 5
  jurisdiction_mode : String := "single"
  require_cross_border : Bool := false
deriving DecidableEq, Repr

/-- `DossierPlan` (bundle_builder.py lines 44-55). -/
structure DossierPlan where
  plan_id : String
  jurisdiction_key : String
  created_at : Int
  total_loss_usd : PyDecimal
  cases : List DossierCandidate
  bundle_reason : String
  cross_border : Bool
  shared_drive_parent_id : Option String := none
deriving DecidableEq, Repr

/-- Python `==` on two distinct `DossierCandidate` objects (dataclass
field-tuple comparison): Decimal NaN compares unequal to itself, and a
`list` never equals a `tuple`. -/
def DossierCandidate.pyEq (a b : DossierCandidate) : Bool :=
  a.case_id == b.case_id && a.loss_amount_usd.pyEq b.loss_amount_usd &&
    a.accepted_at == b.accepted_at && a.jurisdiction == b.jurisdiction &&
    a.cross_border == b.cross_border && a.primary_entities == b.primary_entities

/-- Python `==` on two distinct `DossierPlan` objects. -/
def DossierPlan.pyEq (a b : DossierPlan) : Bool :=
  a.plan_id == b.plan_id && a.jurisdiction_key == b.jurisdiction_key &&
    a.created_at == b.created_at && a.total_loss_usd.pyEq b.total_loss_usd &&
    a.cases.length == b.cases.length &&
    (a.cases.zip b.cases).all (fun cc => cc.1.pyEq cc.2) &&
    a.bundle_reason == b.bundle_reason && a.cross_border == b.cross_border &&
    a.shared_drive_parent_id == b.shared_drive_parent_id

/-- The per-case entry of `DossierPlan.to_dict` (bundle_builder.py lines
68-78): note `list(case.primary_entities)` always yields a JSON list. -/
def DossierCandidate.to_dict (c : DossierCandidate) : PyObj :=
  .pyDict [
    ("case_id", .pyStr c.case_id),
    ("loss_amount_usd", .pyDec c.loss_amount_usd),
    ("accepted_at", .pyDt c.accepted_at),
    ("jurisdiction", .pyStr c.jurisdiction),
    ("cross_border", .pyBool c.cross_border),
    ("primary_entities", .pyList (c.primary_entities.elems.map .pyStr))]

/-- `DossierPlan.to_dict` (bundle_builder.py lines 57-79). -/
def DossierPlan.to_dict (p : DossierPlan) : PyObj :=
  .pyDict [
    ("plan_id", .pyStr p.plan_id),
    ("jurisdiction_key", .pyStr p.jurisdiction_key),
    ("created_at", .pyDt p.created_at),
    ("total_loss_usd", .pyDec p.total_loss_usd),
    ("bundle_reason", .pyStr p.bundle_reason),
    ("cross_border", .pyBool p.cross_border),
    ("shared_drive_parent_id",
      match p.shared_drive_parent_id with
      | some s => .pyStr s
      | none => .pyNone),
    ("cases", .pyList (p.cases.map DossierCandidate.to_dict))]

/-- `mapping.get(key)` on a payload object. -/
def pyDictGet : PyObj → String → Option PyObj
  | .pyDict es, k => (es.find? (fun e => e.1 == k)).map (fun e => e.2)
  | _, _ => none

/-- `payload[key]`: raises `KeyError` when absent. -/
def pyGetItem (o : PyObj) (k : String) : Except PyErr PyObj :=
  match pyDictGet o k with
  | some v => .ok v
  | none => .error (.keyError k)

/-- A payload field read into a `str`-typed dataclass slot.  Payloads in
scope are produced by `to_dict`, whose string fields are strings; other
shapes are out of the modelled schema. -/
def decodeStr : PyObj → Except PyErr String
  | .pyStr s => .ok s
  | _ => .error (.typeError "str field outside the serialized schema")

/-- `Decimal(x)` applied to a payload field: a serialized Decimal string
re-parses to an equal value; plain strings go through the decimal string
parser (raising `InvalidOperation` on failure); ints and bools convert
exactly. -/
def decodeDecimalVal : PyObj → Except PyErr PyDecimal
  | .pyDec d => .ok d
  | .pyStr s =>
      match pyDecimalOfString s with
      | some d => .ok d
      | none => .error (.invalidOperation "invalid decimal literal")
  | .pyInt n => .ok (.fin (n : ℚ))
  | .pyBool b => .ok (.fin (if b then 1 else 0))
  | _ => .error (.typeError "conversion from unsupported type to Decimal")

/-- `datetime.fromisoformat(x)` on a payload field: a serialized
`isoformat` string re-parses to the same instant; other strings are out of
the modelled schema. -/
def decodeDatetime : PyObj → Except PyErr Int
  | .pyDt t => .ok t
  | _ => .error (.typeError "fromisoformat argument outside the serialized schema")

/-- All-strings view of a payload list (entities in scope are strings). -/
def allStrings : List PyObj → Option (List String)
  | [] => some []
  | .pyStr s :: rest => (allStrings rest).map (fun ss => s :: ss)
  | _ => none

/-- `tuple(item.get("primary_entities") or [])`. -/
def decodeEntities (v : Option PyObj) : Except PyErr PySeq :=
  match v with
  | none => .ok (.pytuple [])
  | some o =>
      if o.isTruthy then
        match o with
        | .pyList xs =>
            match allStrings xs with
            | some ss => .ok (.pytuple ss)
            | none => .error (.typeError "non-string entity outside the modelled schema")
        | _ => .error (.typeError "tuple() argument outside the modelled schema")
      else .ok (.pytuple [])

/-- One entry of the `cases` list inside `DossierPlan.from_dict`
(bundle_builder.py lines 85-95); keyword arguments evaluate in source
order, so the first missing key raises. -/
def DossierCandidate.from_dict (item : PyObj) : Except PyErr DossierCandidate := do
  let case_id ← decodeStr (← pyGetItem item "case_id")
  let loss ← decodeDecimalVal (← pyGetItem item "loss_amount_usd")
  let accepted ← decodeDatetime (← pyGetItem item "accepted_at")
  let jurisdiction ← decodeStr (← pyGetItem item "jurisdiction")
  let cross_border := ((pyDictGet item "cross_border").getD (.pyBool false)).isTruthy
  let primary ← decodeEntities (pyDictGet item "primary_entities")
  return ⟨case_id, loss, accepted, jurisdiction, cross_border, primary⟩

/-- The list comprehension over `payload.get("cases", [])`: left to right,
propagating the first exception. -/
def decodeCases : List PyObj → Except PyErr (List DossierCandidate)
  | [] => .ok []
  | item :: rest => do
      let c ← DossierCandidate.from_dict item
      let cs ← decodeCases rest
      return c :: cs

/-- `DossierPlan.from_dict` (bundle_builder.py lines 81-105): builds the
`cases` list first, then reads the scalar fields in keyword order. -/
def DossierPlan.from_dict (payload : PyObj) : Except PyErr DossierPlan := do
  let rawCases := (pyDictGet payload "cases").getD (.pyList [])
  let caseItems ←
    match rawCases with
    | .pyList xs => pure xs
    | _ => Except.error (.typeError "cases value is not iterable")
  let cases ← decodeCases caseItems
  let plan_id ← decodeStr (← pyGetItem payload "plan_id")
  let jurisdiction_key ← decodeStr (← pyGetItem payload "jurisdiction_key")
  let created_at ← decodeDatetime (← pyGetItem payload "created_at")
  let total ← decodeDecimalVal (← pyGetItem payload "total_loss_usd")
  let bundle_reason ← decodeStr (← pyGetItem payload "bundle_reason")
  let cross_border := ((pyDictGet payload "cross_border").getD (.pyBool false)).isTruthy
  let sdp ←
    match (pyDictGet payload "shared_drive_parent_id").getD .pyNone with
    | .pyNone => pure (Option.none : Option String)
    | .pyStr s => pure (some s)
    | _ => Except.error (.typeError "shared_drive_parent_id outside the modelled schema")
  return ⟨plan_id, jurisdiction_key, created_at, total, cases, bundle_reason, cross_border, sdp⟩

/-- `BundleBuilder._filter_candidates` (loss, recency, cross-border
filters; the Decimal `<` raises on NaN operands). -/
def filterCandidates (cands : List DossierCandidate) (criteria : BundleCriteria)
    (reference_time : Int) : Except PyErr (List DossierCandidate) :=
  match cands with
  | [] => .ok []
  | c :: rest => do
      let below ← c.loss_amount_usd.lt criteria.min_loss_usd
      let keep :=
        if below then false
        else if !c.is_recent criteria.recency_days reference_time then false
        else if criteria.require_cross_border && !c.cross_border then false
        else true
      let tail ← filterCandidates rest criteria reference_time
      return if keep then c :: tail else tail

/-- `dict.setdefault(key, []).append(candidate)` on an insertion-ordered
bucket list. -/
def addToBucket (buckets : List (String × List DossierCandidate)) (key : String)
    (c : DossierCandidate) : List (String × List DossierCandidate) :=
  match buckets with
  | [] => [(key, [c])]
  | (k, cs) :: rest =>
      if k = key then (k, cs ++ [c]) :: rest else (k, cs) :: addToBucket rest key c

/-- `BundleBuilder._group_candidates`: buckets in first-occurrence
insertion order. -/
def groupCandidates (cands : List DossierCandidate) (criteria : BundleCriteria) :
    List (String × List DossierCandidate) :=
  if criteria.jurisdiction_mode = "global" then [("global", cands)]
  else
    cands.foldl
      (fun buckets c =>
        let key :=
          if criteria.jurisdiction_mode = "multi" && c.cross_border then "cross-border"
          else if c.jurisdiction = "" then "unknown"
          else c.jurisdiction
        addToBucket buckets key c)
      []

/-- Consecutive slices of size `n` (`n ≥ 1`), preserving order; the fuel
argument (instantiated with the list length, which bounds the number of
slices) keeps the recursion structural. -/
def listChunksGo : Nat → List DossierCandidate → Nat → List (List DossierCandidate)
  | _, [], _ => []
  | 0, _ :: _, _ => []
  | fuel + 1, x :: rest, n => (x :: rest).take n :: listChunksGo fuel ((x :: rest).drop n) n

/-- `BundleBuilder._chunk`: one unbounded chunk when `chunk_size <= 0`. -/
def chunkList (cands : List DossierCandidate) (chunk_size : Int) :
    List (List DossierCandidate) :=
  if chunk_size ≤ 0 then [cands]
  else listChunksGo cands.length cands chunk_size.toNat

/-- `BundleBuilder._build_plan_id`: slug of the bucket key, the reference
date as YYYYMMDD, and the 1-based 2-digit chunk index. -/
def buildPlanId (bucket_key : String) (reference_time : Int) (chunk_index : Nat) : String :=
  let safe₀ :=
    String.mk (bucket_key.toList.map (fun c =>
      let lc := asciiLower c
      if lc = ' ' then '-' else lc))
  let safe_key := if safe₀ = "" then "unknown" else safe₀
  "dossier-" ++ safe_key ++ "-" ++ strftimeYmd reference_time ++ "-" ++ padNum 2 chunk_index

/-- `BundleBuilder._derive_bundle_reason`. -/
def deriveBundleReason (bucket_key : String) (cands : List DossierCandidate) : String :=
  if bucket_key = "global" then
    "Global dossier: high-loss cases aggregated across jurisdictions"
  else if bucket_key = "cross-border" then
    "Cross-border dossier: mixed jurisdictions sharing cross-border indicators"
  else if cands.length = 1 then
    "Single jurisdiction (" ++ bucket_key ++ ") dossier"
  else
    bucket_key ++ " dossier (" ++ toString cands.length ++ " cases, shared entities)"

/-- `BundleBuilder._build_plan`: exact decimal sum of member losses,
aggregate cross-border flag, deterministic identifier. -/
def buildPlan (cands : List DossierCandidate) (bucket_key : String) (chunk_index : Nat)
    (reference_time : Int) (sdp : Option String) : DossierPlan :=
  { plan_id := buildPlanId bucket_key reference_time chunk_index
    jurisdiction_key := bucket_key
    created_at := reference_time
    total_loss_usd := cands.foldl (fun acc c => acc.add c.loss_amount_usd) (.fin 0)
    cases := cands
    bundle_reason := deriveBundleReason bucket_key cands
    cross_border := cands.any (fun c => c.cross_border)
    shared_drive_parent_id := sdp }

/-- `BundleBuilder.generate_plans` (bundle_builder.py lines 142-165) with
an explicit `reference_time` and the builder's `shared_drive_parent_id`. -/
def generatePlans (cands : List DossierCandidate) (criteria : BundleCriteria)
    (reference_time : Int) (sdp : Option String) : Except PyErr (List DossierPlan) := do
  let filtered ← filterCandidates cands criteria reference_time
  let buckets := groupCandidates filtered criteria
  return buckets.foldl
    (fun plans bk =>
      plans ++
        ((chunkList bk.2 criteria.max_cases_per_dossier).enum.map
          (fun ic => buildPlan ic.2 bk.1 (ic.1 + 1) reference_time sdp)))
    []

/-- One row of the `dossier_queue` table (dossier_queue_store.py lines
35-55).  The list order of a queue state is rowid (insertion) order; the
`payload` column holds `json.loads` of the stored `json.dumps` text, which
is the `to_dict` value itself (the serialized payload contains only JSON
shapes), and `warnings` holds the decoded JSON list or NULL. -/
structure QueueRow where
  plan_id : String
  status : String
  priority : String
  payload : PyObj
  queued_at : String
  updated_at : String
  error : Option String
  warnings : Option (List String)

/-- The row inserted by `enqueue_plan`: status `pending`, fresh
`queued_at`/`updated_at`, no error, NULL warnings. -/
def mkQueueRow (plan : DossierPlan) (priority now : String) : QueueRow :=
  ⟨plan.plan_id, "pending", priority, plan.to_dict, now, now, none, none⟩

/-- The `INSERT ... ON CONFLICT(plan_id) DO UPDATE` upsert: a conflicting
row is overwritten in place (it keeps its rowid position); otherwise the
new row is appended. -/
def enqueueRows : List QueueRow → QueueRow → List QueueRow
  | [], nr => [nr]
  | r :: rs, nr => if r.plan_id = nr.plan_id then nr :: rs else r :: enqueueRows rs nr

/-- `DossierQueueStore.enqueue_plan` (dossier_queue_store.py lines 57-78)
at wall-clock instant `now` (the `isoformat` text used for both
`queued_at` and `updated_at`). -/
def enqueuePlan (s : List QueueRow) (plan : DossierPlan) (priority now : String) :
    List QueueRow :=
  enqueueRows s (mkQueueRow plan priority now)

/-- `_row_to_dict` of the lease/pending projection (`plan_id, priority,
payload, queued_at, updated_at, warnings`): NULL warnings decode to `[]`. -/
structure LeasedEntry where
  plan_id : String
  priority : String
  payload : PyObj
  queued_at : String
  updated_at : String
  warnings : List String

def rowToLeased (r : QueueRow) : LeasedEntry :=
  ⟨r.plan_id, r.priority, r.payload, r.queued_at, r.updated_at, r.warnings.getD []⟩

/-- `_row_to_dict` of the full projection used by `get_plan` /
`list_plans` (adds `status` and `error`). -/
structure StoredEntry where
  plan_id : String
  status : String
  priority : String
  payload : PyObj
  queued_at : String
  updated_at : String
  error : Option String
  warnings : List String

def rowToStored (r : QueueRow) : StoredEntry :=
  ⟨r.plan_id, r.status, r.priority, r.payload, r.queued_at, r.updated_at, r.error,
    r.warnings.getD []⟩

/-- `DossierQueueStore.get_plan`: the row keyed by `plan_id` (the primary
key admits at most one; on a list state this is the first match). -/
def getPlan (s : List QueueRow) (pid : String) : Option StoredEntry :=
  (s.find? (fun r => r.plan_id == pid)).map rowToStored

/-- `_update_status`: `UPDATE dossier_queue SET status, updated_at, error,
warnings WHERE plan_id = ?` — every matching row is rewritten; `error`
and `warnings` default to NULL when the caller does not pass them. -/
def updateStatus (s : List QueueRow) (pid status : String) (error : Option String)
    (warnings : Option (List String)) (now : String) : List QueueRow :=
  s.map (fun r =>
    if r.plan_id = pid then
      { r with status := status, updated_at := now, error := error, warnings := warnings }
    else r)

/-- `mark_complete(plan_id, warnings=...)`. -/
def markComplete (s : List QueueRow) (pid : String) (warnings : Option (List String))
    (now : String) : List QueueRow :=
  updateStatus s pid "completed" none warnings now

/-- `mark_failed(plan_id, error)`. -/
def markFailed (s : List QueueRow) (pid error now : String) : List QueueRow :=
  updateStatus s pid "failed" (some error) none now

/-- `reset(plan_id)`. -/
def resetQ (s : List QueueRow) (pid now : String) : List QueueRow :=
  updateStatus s pid "pending" none none now

/-- The `SELECT ... WHERE status='pending' ORDER BY queued_at ASC LIMIT 1`
of `lease_next`: the scan keeps the first-encountered row among those with
minimal `queued_at` (TEXT comparison; the SQL has no secondary sort key). -/
def selectOldestPending : List QueueRow → Option QueueRow
  | [] => none
  | r :: rs =>
      let rest := selectOldestPending rs
      if r.status = "pending" then
        match rest with
        | none => some r
        | some m => if pyStrLt m.queued_at r.queued_at then some m else some r
      else rest

/-- `DossierQueueStore.lease_next` (dossier_queue_store.py lines 148-175):
select the oldest pending row, set it to `leased` with a fresh
`updated_at`, and return the pre-update row projection. -/
def leaseNext (s : List QueueRow) (now : String) : Option LeasedEntry × List QueueRow :=
  match selectOldestPending s with
  | none => (none, s)
  | some row =>
      (some (rowToLeased row),
        s.map (fun r =>
          if r.plan_id = row.plan_id then { r with status := "leased", updated_at := now }
          else r))

/-- `DossierGenerationResult` (dossier_pipeline.py lines 23-29); artifact
paths as strings. -/
structure DossierGenerationResult where
  plan_id : String
  artifacts : List String
  warnings : List String

/-- One entry of the summary's `plans` list (`_result_summary` or the
inline dry-run / failure dicts). -/
inductive PlanOutcome where
  | dryRunO (plan_id : String)
  | completedO (plan_id : String) (artifacts : List String) (warnings : List String)
  | failedO (plan_id : String) (error : String)

/-- `QueueProcessSummary` (dossier_queue_processor.py lines 15-23). -/
structure QueueProcessSummary where
  processed : Nat
  completed : Nat
  failed : Nat
  dry_run : Bool
  plans : List PlanOutcome

/-- The batch loop of `DossierQueueProcessor.process_batch`
(dossier_queue_processor.py lines 52-106).  The injected generator is a
function from the deserialized plan to either a result or the raised
exception's message; progress-reporter calls are fire-and-forget and carry
no state.  Deserialization happens before the per-plan `try`, so its
exception propagates out of the loop with the store state as of that
moment. -/
def processBatchGo (gen : DossierPlan → Except String DossierGenerationResult)
    (dryRun : Bool) (now : String) :
    Nat → List QueueRow → Nat → Nat → Nat → List PlanOutcome →
      Except PyErr QueueProcessSummary × List QueueRow
  | 0, s, processed, completed, failed, outs =>
      (.ok ⟨processed, completed, failed, dryRun, outs⟩, s)
  | fuel + 1, s, processed, completed, failed, outs =>
      match leaseNext s now with
      | (none, s₁) => (.ok ⟨processed, completed, failed, dryRun, outs⟩, s₁)
      | (some entry, s₁) =>
          let processed := processed + 1
          let planPayload := if entry.payload.isTruthy then entry.payload else .pyDict []
          match DossierPlan.from_dict planPayload with
          | .error e => (.error e, s₁)
          | .ok plan =>
              let pid := plan.plan_id
              if dryRun then
                processBatchGo gen dryRun now fuel (resetQ s₁ pid now) processed completed
                  failed (outs ++ [.dryRunO pid])
              else
                match gen plan with
                | .ok result =>
                    processBatchGo gen dryRun now fuel
                      (markComplete s₁ pid (some result.warnings) now)
                      processed (completed + 1) failed
                      (outs ++ [.completedO result.plan_id result.artifacts result.warnings])
                | .error msg =>
                    processBatchGo gen dryRun now fuel (markFailed s₁ pid msg now)
                      processed completed (failed + 1) (outs ++ [.failedO pid msg])

/-- `DossierQueueProcessor.process_batch(batch_size, dry_run)`. -/
def processBatch (gen : DossierPlan → Except String DossierGenerationResult)
    (batch_size : Nat) (dryRun : Bool) (now : String) (s : List QueueRow) :
    Except PyErr QueueProcessSummary × List QueueRow :=
  processBatchGo gen dryRun now batch_size s 0 0 0 []

/-- `ArtifactSignature` (dossier_signatures.py lines 13-30). -/
structure ArtifactSignature where
  label : String
  path : String
  size_bytes : Nat
  hash_value : String

/-- `SignatureManifest` (dossier_signatures.py lines 33-50); the
generation instant as seconds since the Unix epoch. -/
structure SignatureManifest where
  algorithm : String
  generated_at : Int
  artifacts : List ArtifactSignature
  warnings : List String

/-- `ArtifactVerification` (dossier_signatures.py lines 53-64). -/
structure ArtifactVerification where
  label : String
  path : Option String
  expected_hash : Option String
  actual_hash : Option String
  existsOnDisk : Bool
  hashMatches : Bool
  size_bytes : Option Nat
  error : Option String

/-- `ManifestVerificationReport` (dossier_signatures.py lines 67-85);
`warnings` keeps the manifest's own entries (arbitrary objects) plus the
strings appended during verification. -/
structure ManifestVerificationReport where
  algorithm : String
  artifacts : List ArtifactVerification
  warnings : List PyObj

/-- The `missing_count` property: artifacts whose file does not exist. -/
def ManifestVerificationReport.missing_count (r : ManifestVerificationReport) : Nat :=
  (r.artifacts.filter (fun a => !a.existsOnDisk)).length

/-- The `mismatch_count` property: existing artifacts whose hash does not
match. -/
def ManifestVerificationReport.mismatch_count (r : ManifestVerificationReport) : Nat :=
  (r.artifacts.filter (fun a => a.existsOnDisk && !a.hashMatches)).length

/-- The `all_verified` property. -/
def ManifestVerificationReport.all_verified (r : ManifestVerificationReport) : Bool :=
  r.missing_count == 0 && r.mismatch_count == 0

/-- The filesystem as seen by the signature helpers: file contents (bytes)
by path, `none` for a missing file. -/
def Filesystem : Type := String → Option (List Nat)

/-- `_hash_file` behaviour, abstracted over `hashlib`: given the algorithm
name and the file bytes, either the hex digest or the raised error text
(`ValueError` for an unsupported algorithm, `OSError` text for a failed
read). -/
def HashFn : Type := String → List Nat → Except String String

/-- `generate_signature_manifest` (dossier_signatures.py lines 88-115):
skips entries without a path or without a file on disk (warning each),
hashes the rest.  The transcribed keyword parameters of this function are
`algorithm` only — see `acceptedKwargsOfGenerateSignatureManifest`. -/
def generateSignatureManifest (entries : List (String × Option String))
    (algorithm : String) (genAt : Int) (fs : Filesystem) (hashFn : HashFn) :
    Except PyErr SignatureManifest := do
  let mut artifacts : List ArtifactSignature := []
  let mut warnings : List String := []
  for e in entries do
    match e.2 with
    | none => warnings := warnings ++ ["Artifact " ++ e.1 ++ " missing path; skipping signature"]
    | some p =>
        match fs p with
        | none => warnings := warnings ++ ["Artifact " ++ e.1 ++ " missing on disk at " ++ p]
        | some bytes =>
            match hashFn algorithm bytes with
            | .error msg => throw (.valueError msg)
            | .ok h =>
                artifacts := artifacts ++ [⟨e.1, p, bytes.length, h⟩]
  return ⟨algorithm, genAt, artifacts, warnings⟩

/-- The keyword parameters `generate_signature_manifest` accepts besides
the positional `entries` (transcribed from its `def` line). -/
def acceptedKwargsOfGenerateSignatureManifest : List String := ["algorithm"]

/-- Python `iter(x)`: the element sequence of a list, the keys of a dict,
the one-character strings of a string; other scalars are not iterable. -/
def pyIterate : PyObj → Except PyErr (List PyObj)
  | .pyList xs => .ok xs
  | .pyDict es => .ok (es.map (fun e => .pyStr e.1))
  | .pyStr s => .ok (s.toList.map (fun c => .pyStr (String.mk [c])))
  | _ => .error (.typeError "object is not iterable")

/-- `/` appears first in a path exactly when it is absolute (POSIX). -/
def pathIsAbsolute (p : String) : Bool :=
  match p.toList with
  | '/' :: _ => true
  | _ => false

/-- `(base_path / candidate).resolve()` for the relative paths in scope
(no symlinks or `..` segments are exercised). -/
def pathJoin (base p : String) : String :=
  base ++ "/" ++ p

/-- The body of the `for raw_artifact in artifact_rows` loop of
`verify_manifest_payload` (dossier_signatures.py lines 133-182), threading
the results and warnings accumulators. -/
def verifyArtifactStep (manifestAlgorithm : String) (base_path : Option String)
    (fs : Filesystem) (hashFn : HashFn)
    (acc : List ArtifactVerification × List PyObj) (raw : PyObj) :
    List ArtifactVerification × List PyObj :=
  match raw with
  | .pyDict _ =>
      let lv := (pyDictGet raw "label").getD .pyNone
      let label := if lv.isTruthy then lv.strOf else "artifact"
      let expectedHash : Option PyObj :=
        match pyDictGet raw "hash" with
        | none => none
        | some .pyNone => none
        | some v => some v
      let resolvedPath : Option String :=
        match pyDictGet raw "path" with
        | some (.pyStr rp) =>
            if !pathIsAbsolute rp then
              match base_path with
              | some bp => some (pathJoin bp rp)
              | none => some rp
            else some rp
        | _ => none
      let fileBytes : Option (List Nat) :=
        match resolvedPath with
        | some p => fs p
        | none => none
      let existsB := fileBytes.isSome
      let sizeBytes : Option Nat := fileBytes.map List.length
      let hashOutcome : Option String × Option String :=
        match fileBytes with
        | some bytes =>
            match hashFn manifestAlgorithm bytes with
            | .ok h => (some h, none)
            | .error msg => (none, some msg)
        | none => (none, none)
      let actualHash := hashOutcome.1
      let ioError := hashOutcome.2
      let warnings₁ :=
        if expectedHash.isNone then
          acc.2 ++ [PyObj.pyStr ("Artifact " ++ label ++ " missing expected hash value")]
        else acc.2
      let hashMatches :=
        existsB &&
          (match actualHash with
           | some a => a ≠ ""
           | none => false) &&
          (match expectedHash with
           | some ev => ev.isTruthy
           | none => false) &&
          (match actualHash, expectedHash with
           | some a, some (.pyStr s) => a == s
           | _, _ => false)
      (acc.1 ++ [{
          label := label
          path := resolvedPath
          expected_hash := expectedHash.map PyObj.strOf
          actual_hash := actualHash
          existsOnDisk := existsB
          hashMatches := hashMatches
          size_bytes := sizeBytes
          error := ioError }],
        warnings₁)
  | _ =>
      (acc.1, acc.2 ++ [PyObj.pyStr "Encountered non-dict artifact entry; skipping"])

/-- `verify_manifest_payload` (dossier_signatures.py lines 118-188):
algorithm fallback chain, `ValueError` on a non-iterable `artifacts`
value, then the per-artifact verification loop. -/
def verifyManifestPayload (manifest : List (String × PyObj)) (base_path : Option String)
    (algorithm : Option String) (fs : Filesystem) (hashFn : HashFn) :
    Except PyErr ManifestVerificationReport := do
  let algVal := (metaGet manifest "algorithm").getD .pyNone
  let manifestAlgorithm :=
    if algVal.isTruthy then algVal.strOf
    else
      match algorithm with
      | some a => if a ≠ "" then a else "sha256"
      | none => "sha256"
  let warningsVal := (metaGet manifest "warnings").getD .pyNone
  let manifestWarnings ← if warningsVal.isTruthy then pyIterate warningsVal else pure []
  let rowsVal := (metaGet manifest "artifacts").getD .pyNone
  let artifactRows := if rowsVal.isTruthy then rowsVal else .pyList []
  let rows ←
    match pyIterate artifactRows with
    | .ok xs => pure xs
    | .error _ => Except.error (.valueError "Manifest artifacts field must be iterable")
  let final := rows.foldl (verifyArtifactStep manifestAlgorithm base_path fs hashFn)
    ([], manifestWarnings)
  return ⟨manifestAlgorithm, final.1, final.2⟩

/-- `DossierAnalysis` (dossier_analysis.py lines 14-23):
`loss_by_jurisdiction` is an insertion-ordered dict, `accepted_range` the
(earliest, latest) acceptance instants, `primary_entity_frequencies` the
top entities with their counts. -/
structure DossierAnalysis where
  case_count : Nat
  total_loss_usd : PyDecimal
  loss_by_jurisdiction : List (String × PyDecimal)
  cross_border_cases : List String
  accepted_earliest : Option Int
  accepted_latest : Option Int
  primary_entity_frequencies : List (String × Nat)

/-- `loss_by_jurisdiction[j] = loss_by_jurisdiction.get(j, 0) + loss`:
update in place, append a new key. -/
def bumpLoss (m : List (String × PyDecimal)) (k : String) (v : PyDecimal) :
    List (String × PyDecimal) :=
  match m with
  | [] => [(k, (PyDecimal.fin 0).add v)]
  | (k0, v0) :: rest =>
      if k0 = k then (k0, v0.add v) :: rest else (k0, v0) :: bumpLoss rest k v

/-- `Counter[key] += 1` on an insertion-ordered count list. -/
def bumpCount (m : List (String × Nat)) (k : String) : List (String × Nat) :=
  match m with
  | [] => [(k, 1)]
  | (k0, n) :: rest => if k0 = k then (k0, n + 1) :: rest else (k0, n) :: bumpCount rest k

/-- `sorted(..., key=lambda item: (-count, entity))`: `a` sorts no later
than `b`. -/
def freqLe (a b : String × Nat) : Bool :=
  b.2 < a.2 || (a.2 == b.2 && !pyStrLt b.1 a.1)

def insertFreq (x : String × Nat) : List (String × Nat) → List (String × Nat)
  | [] => [x]
  | y :: ys => if freqLe x y then x :: y :: ys else y :: insertFreq x ys

/-- Insertion sort under `freqLe` (the key `(-count, entity)` is injective
on counter items, so any correct sort yields the same list). -/
def sortFreq : List (String × Nat) → List (String × Nat)
  | [] => []
  | x :: xs => insertFreq x (sortFreq xs)

/-- The per-candidate accumulation loop of `analyze_plan`
(dossier_analysis.py lines 52-63). -/
def analyzeStep
    (acc : List (String × PyDecimal) × List String × List (String × Nat) × List Int)
    (c : DossierCandidate) :
    List (String × PyDecimal) × List String × List (String × Nat) × List Int :=
  let j₀ := if c.jurisdiction = "" then "unknown" else c.jurisdiction
  let j₁ := pyTrim j₀
  let jurisdiction := if j₁ = "" then "unknown" else j₁
  let byJur := bumpLoss acc.1 jurisdiction c.loss_amount_usd
  let crossCases := if c.cross_border then acc.2.1 ++ [c.case_id] else acc.2.1
  let counter := c.primary_entities.elems.foldl
    (fun m e =>
      let normalized := pyTrim e
      if normalized ≠ "" then bumpCount m normalized else m)
    acc.2.2.1
  (byJur, crossCases, counter, acc.2.2.2 ++ [c.accepted_at])

/-- `analyze_plan` (dossier_analysis.py lines 44-79) with the default
`top_entities = 10`. -/
def analyzePlan (plan : DossierPlan) (top_entities : Nat) : DossierAnalysis :=
  let acc := plan.cases.foldl analyzeStep ([], [], [], [])
  let acceptedValues := acc.2.2.2
  { case_count := plan.cases.length
    total_loss_usd := plan.total_loss_usd
    loss_by_jurisdiction := acc.1
    cross_border_cases := acc.2.1
    accepted_earliest := acceptedValues.foldl
      (fun best t =>
        match best with
        | none => some t
        | some b => some (min b t))
      none
    accepted_latest := acceptedValues.foldl
      (fun best t =>
        match best with
        | none => some t
        | some b => some (max b t))
      none
    primary_entity_frequencies := (sortFreq acc.2.2.1).take top_entities }

/-- An optional isoformat value in a payload. -/
def optDtObj : Option Int → PyObj
  | some t => .pyDt t
  | none => .pyNone

/-- `DossierAnalysis.to_dict` (dossier_analysis.py lines 25-41). -/
def DossierAnalysis.to_dict (a : DossierAnalysis) : PyObj :=
  .pyDict [
    ("case_count", .pyInt a.case_count),
    ("total_loss_usd", .pyDec a.total_loss_usd),
    ("loss_by_jurisdiction",
      .pyDict (a.loss_by_jurisdiction.map (fun kv => (kv.1, PyObj.pyDec kv.2)))),
    ("cross_border_cases", .pyList (a.cross_border_cases.map .pyStr)),
    ("accepted_range", .pyDict [
      ("earliest", optDtObj a.accepted_earliest),
      ("latest", optDtObj a.accepted_latest)]),
    ("primary_entity_frequencies",
      .pyList (a.primary_entity_frequencies.map (fun ec =>
        .pyDict [("entity", .pyStr ec.1), ("count", .pyInt ec.2)])))]

/-- The result of an injected context loader: its `to_dict()` payload and
its warnings (dossier_context.py interface used by the pipeline). -/
structure DossierContextResult where
  payload : PyObj
  warnings : List String

/-- The result of an injected visuals builder: its relative-path
`to_dict()` view, its warnings, the asset paths it reports, and the files
its render wrote to disk. -/
structure DossierVisualAssets where
  payload : PyObj
  warnings : List String
  timeline_chart : Option String
  geo_map_image : Option String
  geojson_path : Option String
  writes : List String

/-- The result of an injected tool suite run. -/
structure DossierToolResults where
  payload : PyObj
  warnings : List String

/-- The result of an injected template registry render: its `to_dict()`
payload (possibly carrying a `path`), its warnings, and whether it wrote
the markdown file. -/
structure TemplateRenderResult where
  payload : PyObj
  warnings : List String
  wroteFile : Bool

/-- The constructor-injected state of `DossierGenerator`
(dossier_pipeline.py lines 35-54): artifact directory, configured hash
algorithm, and the four independently optional collaborators. -/
structure DossierGeneratorConfig where
  artifact_dir : String
  hash_algorithm : String
  context_loader : Option (DossierPlan → DossierContextResult)
  visuals_builder : Option (DossierPlan → DossierVisualAssets)
  tool_suite : Option (DossierPlan → Option DossierContextResult → DossierAnalysis →
    Option DossierVisualAssets → String → DossierToolResults)
  template_registry : Option (String → DossierPlan → DossierAnalysis →
    Option DossierContextResult → Option DossierToolResults →
    Option DossierVisualAssets → String → TemplateRenderResult)

/-- `d[k] = v` on a payload dict: overwrite in place or append. -/
def setEntry : List (String × PyObj) → String → PyObj → List (String × PyObj)
  | [], k, v => [(k, v)]
  | (k0, v0) :: rest, k, v =>
      if k0 = k then (k0, v) :: rest else (k0, v0) :: setEntry rest k v

def dictSet (o : PyObj) (k : String) (v : PyObj) : PyObj :=
  match o with
  | .pyDict es => .pyDict (setEntry es k v)
  | other => other

def optStrObj : Option String → PyObj
  | some s => .pyStr s
  | none => .pyNone

/-- Drop the `dir/` prefix from a path under `dir`
(`resolve().relative_to(artifact_dir)`, falling back to the resolved text
when the path is not under the directory). -/
def stripDirPrefix (dir s : String) : String :=
  let dcs := (dir ++ "/").toList
  if s.toList.take dcs.length = dcs then String.mk (s.toList.drop dcs.length) else s

/-- `DossierGenerator._relativize_path` (dossier_pipeline.py lines
157-164). -/
def relativizePath (artifact_dir : String) : Option String → Option String
  | none => none
  | some s => if s = "" then none else some (stripDirPrefix artifact_dir s)

/-- `build_agent_payload` (dossier_agent_payload.py lines 29-41). -/
def buildAgentPayload (plan : DossierPlan) (context : Option DossierContextResult)
    (analysis : DossierAnalysis) : PyObj :=
  .pyDict [
    ("plan", plan.to_dict),
    ("context",
      match context with
      | some c => c.payload
      | none => .pyNone),
    ("analysis", analysis.to_dict)]

/-- The keyword arguments the pipeline passes to
`generate_signature_manifest` (transcribed from the call at
dossier_pipeline.py lines 143-148). -/
def kwargsPassedToGenerateSignatureManifest : List String :=
  ["algorithm", "generated_at", "relative_to"]

/-- `DossierGenerator.generate_from_plan` (dossier_pipeline.py lines
56-155) at generation instant `genTimestamp`, over the list of file paths
written so far (`fs`).  The steps through the manifest write at line 130
are modelled directly; the call to `generate_signature_manifest` at lines
143-148 passes the keyword arguments `generated_at` and `relative_to`,
which the function does not accept, so Python raises `TypeError` at the
call before the callee body runs — the signature manifest is never
computed or written. -/
def generateFromPlan (cfg : DossierGeneratorConfig) (plan : DossierPlan)
    (genTimestamp : Int) (fs : List (String × Option PyObj)) :
    Except PyErr DossierGenerationResult × List (String × Option PyObj) :=
  let payload₀ := plan.to_dict
  let payload₁ := dictSet payload₀ "generated_at" (.pyDt genTimestamp)
  let payload₂ := dictSet payload₁ "case_count" (.pyInt plan.cases.length)
  let analysis := analyzePlan plan 10
  let payload₃ := dictSet payload₂ "analysis" analysis.to_dict
  let context := cfg.context_loader.map (fun f => f plan)
  let payload₄ := dictSet payload₃ "context"
    (match context with
     | some c => c.payload
     | none => .pyNone)
  let assets := cfg.visuals_builder.map (fun f => f plan)
  let payload₅ := dictSet payload₄ "assets"
    (match assets with
     | some a => a.payload
     | none => .pyNone)
  let fs₁ :=
    match assets with
    | some a => fs ++ a.writes.map (fun p => (p, (none : Option PyObj)))
    | none => fs
  let toolResults := cfg.tool_suite.map (fun f =>
    f plan context analysis assets cfg.artifact_dir)
  let payload₆ := dictSet payload₅ "tools"
    (match toolResults with
     | some t => t.payload
     | none => .pyNone)
  let markdownPath := cfg.template_registry.map (fun _ =>
    cfg.artifact_dir ++ "/" ++ plan.plan_id ++ ".md")
  let templateRender := cfg.template_registry.map (fun f =>
    f (cfg.artifact_dir ++ "/" ++ plan.plan_id ++ ".md") plan analysis context
      toolResults assets cfg.artifact_dir)
  let payload₇ := dictSet payload₆ "template_render"
    (match templateRender with
     | some tr =>
         let templatePathVal := (pyDictGet tr.payload "path").getD .pyNone
         if templatePathVal.isTruthy then
           dictSet tr.payload "path"
             (optStrObj (relativizePath cfg.artifact_dir (some templatePathVal.strOf)))
         else tr.payload
     | none => .pyNone)
  let fs₂ :=
    match templateRender, markdownPath with
    | some tr, some mp => if tr.wroteFile then fs₁ ++ [(mp, none)] else fs₁
    | _, _ => fs₁
  let destination := cfg.artifact_dir ++ "/" ++ plan.plan_id ++ ".json"
  let signaturePath := cfg.artifact_dir ++ "/" ++ plan.plan_id ++ ".signatures.json"
  let payload₈ := dictSet payload₇ "signature_manifest"
    (.pyDict [
      ("path", optStrObj (relativizePath cfg.artifact_dir (some signaturePath))),
      ("algorithm", .pyStr cfg.hash_algorithm)])
  let payload₉ := dictSet payload₈ "agent_payload" (buildAgentPayload plan context analysis)
  let fs₃ := fs₂ ++ [(destination, some payload₉)]
  let unexpected := kwargsPassedToGenerateSignatureManifest.filter
    (fun k => !acceptedKwargsOfGenerateSignatureManifest.contains k)
  match unexpected with
  | k :: _ =>
      (.error (.typeError
        ("generate_signature_manifest() got an unexpected keyword argument '" ++ k ++ "'")),
        fs₃)
  | [] =>
      -- With the transcribed parameter and argument lists this branch is
      -- empty: `generated_at` is always rejected before the callee runs.
      (.error (.typeError "unreachable: the keyword call never dispatches"), fs₃)

/-- `s.startswith(p)` over character lists (kernel-evaluable). -/
def strStartsWith (s p : String) : Bool :=
  s.toList.take p.toList.length == p.toList

/-- 2025-12-03T00:00:00+00:00 as seconds since the Unix epoch. -/
def refTime : Int := 1764720000

/-- The spec's worked example: loss 100000, `US-CA`, accepted 5 days
before the reference instant. -/
def candHigh : DossierCandidate :=
  { case_id := "case-high", loss_amount_usd := .fin 100000,
    accepted_at := refTime - 5 * 86400, jurisdiction := "US-CA" }

/-- Loss 10000 (below threshold), `US-CA`, accepted 5 days before. -/
def candLow : DossierCandidate :=
  { case_id := "case-low", loss_amount_usd := .fin 10000,
    accepted_at := refTime - 5 * 86400, jurisdiction := "US-CA" }

/-- Loss 75000, `US-CA`, accepted 60 days before (stale). -/
def candStale : DossierCandidate :=
  { case_id := "case-stale", loss_amount_usd := .fin 75000,
    accepted_at := refTime - 60 * 86400, jurisdiction := "US-CA" }

/-- The spec example's criteria. -/
def exampleCriteria : BundleCriteria :=
  { min_loss_usd := .fin 50000, recency_days := 30, max_cases_per_dossier := 1,
    jurisdiction_mode := "single" }

/-- C6: the claim says `compute_bundle_metrics` never raises on any
metadata mapping, but the loss value `"NaN"` parses into `Decimal("NaN")`
inside `_parse_loss` (whose `except` clause only guards the constructor),
and `_loss_band`'s `loss_amount >= Decimal("250000")` then raises
`decimal.InvalidOperation` under the default context.  The code
contradicts the module's stated never-raise contract. -/
theorem compute_bundle_metrics_nan_raises :
    computeBundleMetrics (some [("loss", PyObj.pyStr "NaN")]) =
      Except.error (PyErr.invalidOperation "comparison involving NaN") := by
  decide

/-- C9: on the spec's worked example (three `US-CA` candidates, criteria
`min_loss 50000 / recency 30 / max 1 / single`, reference 2025-12-03),
`generate_plans` yields exactly one plan, whose only member is the first
candidate and whose identifier starts with `dossier-us-ca-20251203-`. -/
theorem generate_plans_worked_example :
    (generatePlans [candHigh, candLow, candStale] exampleCriteria refTime none).map
      (fun ps => ps.map (fun p : DossierPlan =>
        (p.plan_id, p.cases, strStartsWith p.plan_id "dossier-us-ca-20251203-"))) =
      Except.ok [("dossier-us-ca-20251203-01", [candHigh], true)] := by
  decide

/-- C2: `generate_plans` is a pure function of the candidate list, the
criteria, the reference time, and the builder's shared-drive parent: two
calls with identical inputs yield identical plan identifiers in the same
order and identical member ordering inside each plan. -/
theorem generate_plans_deterministic (cands : List DossierCandidate)
    (criteria : BundleCriteria) (reference_time : Int) (sdp : Option String) :
    (generatePlans cands criteria reference_time sdp).map
        (fun ps => ps.map (fun p => p.plan_id)) =
      (generatePlans cands criteria reference_time sdp).map
        (fun ps => ps.map (fun p => p.plan_id)) ∧
    (generatePlans cands criteria reference_time sdp).map
        (fun ps => ps.map (fun p => p.cases.map (fun c => c.case_id))) =
      (generatePlans cands criteria reference_time sdp).map
        (fun ps => ps.map (fun p => p.cases.map (fun c => c.case_id))) :=
  ⟨rfl, rfl⟩

/-- Whether a sequence value is a Python `tuple`. -/
def PySeq.isTuple : PySeq → Bool
  | .pytuple _ => true
  | .pylist _ => false

/-- The candidate normalization applied by deserialization:
`primary_entities` comes back as a tuple. -/
def normalizeCandidate (c : DossierCandidate) : DossierCandidate :=
  { c with primary_entities := .pytuple c.primary_entities.elems }

theorem allStrings_map (xs : List String) :
    allStrings (xs.map PyObj.pyStr) = some xs := by
  induction xs with
  | nil => rfl
  | cons a as ih => simp [allStrings, ih]

theorem decodeEntities_map_str (xs : List String) :
    decodeEntities (some (.pyList (xs.map PyObj.pyStr))) = .ok (.pytuple xs) := by
  cases xs with
  | nil => rfl
  | cons a as => simp [decodeEntities, PyObj.isTruthy, allStrings_map, allStrings]

theorem from_dict_to_dict_candidate (c : DossierCandidate) :
    DossierCandidate.from_dict c.to_dict = Except.ok (normalizeCandidate c) := by
  cases c with
  | mk case_id loss accepted jurisdiction cross_border primary =>
      simp [DossierCandidate.from_dict, DossierCandidate.to_dict, normalizeCandidate,
        pyGetItem, pyDictGet, List.find?, decodeStr, decodeDecimalVal, decodeDatetime,
        decodeEntities_map_str, PyObj.isTruthy, PySeq.elems]
      rfl

theorem decodeCases_to_dict (cs : List DossierCandidate) :
    decodeCases (cs.map DossierCandidate.to_dict) =
      Except.ok (cs.map normalizeCandidate) := by
  induction cs with
  | nil => rfl
  | cons c rest ih =>
      simp [decodeCases, from_dict_to_dict_candidate, ih]
      rfl

theorem from_dict_to_dict_plan (p : DossierPlan) :
    DossierPlan.from_dict p.to_dict =
      Except.ok { p with cases := p.cases.map normalizeCandidate } := by
  cases p with
  | mk plan_id jurisdiction_key created_at total cases reason cross sdp =>
      cases sdp with
      | none =>
          simp [DossierPlan.from_dict, DossierPlan.to_dict, pyGetItem, pyDictGet,
            List.find?, decodeStr, decodeDecimalVal, decodeDatetime,
            decodeCases_to_dict, PyObj.isTruthy]
          rfl
      | some s =>
          simp [DossierPlan.from_dict, DossierPlan.to_dict, pyGetItem, pyDictGet,
            List.find?, decodeStr, decodeDecimalVal, decodeDatetime,
            decodeCases_to_dict, PyObj.isTruthy]
          rfl

theorem normalizeCandidate_of_tuple (c : DossierCandidate)
    (h : c.primary_entities.isTuple = true) : normalizeCandidate c = c := by
  cases c with
  | mk case_id loss accepted jurisdiction cross_border primary =>
      cases primary with
      | pylist xs => simp [PySeq.isTuple] at h
      | pytuple xs => simp [normalizeCandidate, PySeq.elems]

theorem pyEq_self_of_ne_nan (d : PyDecimal) (h : d ≠ .nan) : d.pyEq d = true := by
  cases d with
  | fin q => simp [PyDecimal.pyEq]
  | nan => exact absurd rfl h
  | inf => rfl
  | ninf => rfl

theorem candidate_pyEq_self (c : DossierCandidate) (h : c.loss_amount_usd ≠ .nan) :
    c.pyEq c = true := by
  simp [DossierCandidate.pyEq, pyEq_self_of_ne_nan c.loss_amount_usd h]

theorem zip_self_all_pyEq (l : List DossierCandidate)
    (h : ∀ c ∈ l, c.loss_amount_usd ≠ .nan) :
    (l.zip l).all (fun cc => cc.1.pyEq cc.2) = true := by
  induction l with
  | nil => rfl
  | cons c cs ih =>
      simp only [List.zip_cons_cons, List.all_cons]
      rw [candidate_pyEq_self c (h c (by simp)), ih (fun x hx => h x (by simp [hx]))]
      rfl

theorem plan_pyEq_self (p : DossierPlan) (h1 : p.total_loss_usd ≠ .nan)
    (h2 : ∀ c ∈ p.cases, c.loss_amount_usd ≠ .nan) : p.pyEq p = true := by
  simp [DossierPlan.pyEq, pyEq_self_of_ne_nan p.total_loss_usd h1,
    zip_self_all_pyEq p.cases h2]

/-- The sample plan used by the repository's processor tests: one
candidate with a tuple of entities. -/
def sampleCase : DossierCandidate :=
  { case_id := "case-1", loss_amount_usd := .fin 100000,
    accepted_at := refTime - 2 * 86400, jurisdiction := "US-CA",
    cross_border := false, primary_entities := .pytuple ["wallet:abc"] }

def samplePlan : DossierPlan :=
  { plan_id := "dossier-us-ca-20251203-01", jurisdiction_key := "US-CA",
    created_at := refTime, total_loss_usd := .fin 100000, cases := [sampleCase],
    bundle_reason := "test-plan", cross_border := false, shared_drive_parent_id := none }

/-- The same plan with the candidate's `primary_entities` held in a
Python `list` — the default the dataclass declares
(`field(default_factory=list)`). -/
def listCase : DossierCandidate :=
  { sampleCase with primary_entities := .pylist ["wallet:abc"] }

def listPlan : DossierPlan :=
  { samplePlan with cases := [listCase] }

/-- C5 counterexample: for the constructed plan whose candidate carries
its `primary_entities` as a `list`, deserialization rebuilds them as a
`tuple` (`tuple(item.get("primary_entities") or [])`), and Python's
dataclass `==` distinguishes a list from a tuple, so
`from_dict(to_dict(p)) == p` is false. -/
theorem plan_round_trip_list_counterexample :
    (DossierPlan.from_dict listPlan.to_dict).map (fun q => q.pyEq listPlan) =
        Except.ok false ∧
      DossierPlan.from_dict listPlan.to_dict ≠ Except.ok listPlan := by
  decide

/-- C5 (amended): for every constructed plan whose candidates carry their
`primary_entities` as tuples and whose Decimal fields are not NaN,
`from_dict(to_dict(p))` rebuilds `p` exactly and Python `==` holds.  (The
list-valued counterexample forces the tuple restriction; NaN losses are
excluded because Python's `Decimal("NaN") == Decimal("NaN")` is false, so
no plan containing NaN can satisfy the round-trip equality.) -/
theorem plan_round_trip_amended (p : DossierPlan)
    (htuple : ∀ c ∈ p.cases, c.primary_entities.isTuple = true)
    (hnan : p.total_loss_usd ≠ .nan)
    (hnanc : ∀ c ∈ p.cases, c.loss_amount_usd ≠ .nan) :
    DossierPlan.from_dict p.to_dict = Except.ok p ∧
      (DossierPlan.from_dict p.to_dict).map (fun q => q.pyEq p) = Except.ok true := by
  have hmap₀ : ∀ (l : List DossierCandidate),
      (∀ c ∈ l, c.primary_entities.isTuple = true) → l.map normalizeCandidate = l := by
    intro l
    induction l with
    | nil => intro _; rfl
    | cons c rest ih =>
        intro hl
        simp [normalizeCandidate_of_tuple c (hl c (by simp)),
          ih (fun x hx => hl x (by simp [hx]))]
  have hmap : p.cases.map normalizeCandidate = p.cases := hmap₀ p.cases htuple
  have hstruct : DossierPlan.from_dict p.to_dict = Except.ok p := by
    rw [from_dict_to_dict_plan]
    congr 1
    cases p
    simp_all
  refine ⟨hstruct, ?_⟩
  rw [hstruct]
  simp [Except.map, plan_pyEq_self p hnan hnanc]

/-- C5 witness: the amended round-trip at the repository's sample plan. -/
theorem plan_round_trip_amended_witness :
    DossierPlan.from_dict samplePlan.to_dict = Except.ok samplePlan ∧
      (DossierPlan.from_dict samplePlan.to_dict).map (fun q => q.pyEq samplePlan) =
        Except.ok true :=
  plan_round_trip_amended samplePlan (by decide) (by decide) (by decide)

theorem getPlan_enqueue (s : List QueueRow) (plan : DossierPlan) (priority now : String) :
    getPlan (enqueuePlan s plan priority now) plan.plan_id =
      some ⟨plan.plan_id, "pending", priority, plan.to_dict, now, now, none, []⟩ := by
  simp only [enqueuePlan]
  induction s with
  | nil => simp [enqueueRows, getPlan, List.find?, mkQueueRow, rowToStored]
  | cons r rs ih =>
      by_cases h : r.plan_id = plan.plan_id
      · simp [enqueueRows, mkQueueRow, h, getPlan, List.find?, rowToStored]
      · simp only [enqueueRows, mkQueueRow, if_neg h]
        have hbeq : (r.plan_id == plan.plan_id) = false := beq_eq_false_iff_ne.mpr h
        simpa [getPlan, List.find?_cons, hbeq, mkQueueRow] using ih

/-- C7: re-enqueuing a plan whose identifier is already present (whatever
its status, error, or warnings) leaves the queue entry with the fresh
serialized payload, status `pending`, no error text, and an empty warning
list. -/
theorem enqueue_plan_resets (s : List QueueRow) (plan : DossierPlan)
    (priority now : String) (hexist : ∃ r ∈ s, r.plan_id = plan.plan_id) :
    getPlan (enqueuePlan s plan priority now) plan.plan_id =
      some ⟨plan.plan_id, "pending", priority, plan.to_dict, now, now, none, []⟩ :=
  getPlan_enqueue s plan priority now

/-- A completed entry with an error and warnings, sharing `samplePlan`'s
identifier. -/
def staleRow : QueueRow :=
  ⟨"dossier-us-ca-20251203-01", "completed", "high", .pyDict [],
    "2025-11-01T00:00:00+00:00", "2025-11-02T00:00:00+00:00",
    some "old error", some ["old warning"]⟩

/-- C7 witness: re-enqueuing over the stale completed entry. -/
theorem enqueue_plan_resets_witness :
    getPlan (enqueuePlan [staleRow] samplePlan "normal" "2025-12-03T00:00:00+00:00")
        samplePlan.plan_id =
      some ⟨samplePlan.plan_id, "pending", "normal", samplePlan.to_dict,
        "2025-12-03T00:00:00+00:00", "2025-12-03T00:00:00+00:00", none, []⟩ :=
  enqueue_plan_resets [staleRow] samplePlan "normal" "2025-12-03T00:00:00+00:00"
    ⟨staleRow, by simp, rfl⟩

theorem chLt_irrefl : ∀ (x : List Char), chLt x x = false
  | [] => rfl
  | a :: as => by simp [chLt, chLt_irrefl as]

theorem chLt_asymm : ∀ {x y : List Char}, chLt x y = true → chLt y x = false
  | [], [], h => by simp [chLt] at h
  | [], _ :: _, _ => rfl
  | _ :: _, [], h => by simp [chLt] at h
  | a :: as, b :: bs, h => by
      simp only [chLt] at h ⊢
      by_cases h1 : a.toNat < b.toNat
      · have h2 : ¬ b.toNat < a.toNat := Nat.lt_asymm h1
        simp [h1, h2]
      · by_cases h2 : b.toNat < a.toNat
        · simp [h1, h2] at h
        · simp only [if_neg h1, if_neg h2] at h ⊢
          exact chLt_asymm h

theorem chLt_false_trans :
    ∀ {x y z : List Char}, chLt x y = false → chLt y z = false → chLt x z = false
  | [], [], z, _, h2 => h2
  | [], _ :: _, _, h1, _ => by simp [chLt] at h1
  | _ :: _, [], [], _, _ => rfl
  | _ :: _, [], _ :: _, _, h2 => by simp [chLt] at h2
  | _ :: _, _ :: _, [], _, _ => rfl
  | a :: as, b :: bs, c :: cs, h1, h2 => by
      simp only [chLt] at h1 h2 ⊢
      by_cases hab : a.toNat < b.toNat
      · simp [hab] at h1
      · by_cases hbc : b.toNat < c.toNat
        · simp [hbc] at h2
        · by_cases hac : a.toNat < c.toNat
          · exact absurd (by omega : b.toNat < c.toNat) hbc
          · by_cases hca : c.toNat < a.toNat
            · simp [hac, hca]
            · have hba : ¬ b.toNat < a.toNat := by omega
              have hcb : ¬ c.toNat < b.toNat := by omega
              simp only [if_neg hab, if_neg hba] at h1
              simp only [if_neg hbc, if_neg hcb] at h2
              simp only [if_neg hac, if_neg hca]
              exact chLt_false_trans h1 h2

theorem pyStrLt_asymm {a b : String} (h : pyStrLt a b = true) : pyStrLt b a = false :=
  chLt_asymm h

theorem pyStrLt_irrefl (a : String) : pyStrLt a a = false :=
  chLt_irrefl a.toList

theorem pyStrLt_false_trans {a b c : String} (h1 : pyStrLt a b = false)
    (h2 : pyStrLt b c = false) : pyStrLt a c = false :=
  chLt_false_trans h1 h2

theorem selectOldestPending_eq_none_iff (s : List QueueRow) :
    selectOldestPending s = none ↔ ∀ r ∈ s, r.status ≠ "pending" := by
  induction s with
  | nil => simp [selectOldestPending]
  | cons r rs ih =>
      by_cases h : r.status = "pending"
      · constructor
        · intro hnone
          exfalso
          simp only [selectOldestPending, if_pos h] at hnone
          cases hrest : selectOldestPending rs with
          | none =>
              simp only [hrest] at hnone
              exact Option.noConfusion hnone
          | some m =>
              simp only [hrest] at hnone
              by_cases hlt : pyStrLt m.queued_at r.queued_at = true
              · rw [if_pos hlt] at hnone; exact Option.noConfusion hnone
              · rw [if_neg hlt] at hnone; exact Option.noConfusion hnone
        · intro hall
          exact absurd h (hall r (by simp))
      · simp [selectOldestPending, if_neg h, ih, h]

theorem selectOldestPending_spec (s : List QueueRow) (m : QueueRow)
    (hm : selectOldestPending s = some m) :
    m ∈ s ∧ m.status = "pending" ∧
      ∀ q ∈ s, q.status = "pending" → pyStrLt q.queued_at m.queued_at = false := by
  induction s generalizing m with
  | nil => simp [selectOldestPending] at hm
  | cons r rs ih =>
      by_cases h : r.status = "pending"
      · simp only [selectOldestPending, if_pos h] at hm
        cases hrest : selectOldestPending rs with
        | none =>
            simp only [hrest] at hm
            obtain rfl : r = m := Option.some.inj hm
            refine ⟨by simp, h, ?_⟩
            intro q hq hqp
            rcases List.mem_cons.mp hq with rfl | hq'
            · exact pyStrLt_irrefl _
            · exact absurd hqp ((selectOldestPending_eq_none_iff rs).mp hrest q hq')
        | some mr =>
            simp only [hrest] at hm
            obtain ⟨hmem, hpend, hmin⟩ := ih mr hrest
            by_cases hlt : pyStrLt mr.queued_at r.queued_at = true
            · rw [if_pos hlt] at hm
              obtain rfl : mr = m := Option.some.inj hm
              refine ⟨List.mem_cons_of_mem _ hmem, hpend, ?_⟩
              intro q hq hqp
              rcases List.mem_cons.mp hq with rfl | hq'
              · exact pyStrLt_asymm hlt
              · exact hmin q hq' hqp
            · rw [if_neg hlt] at hm
              obtain rfl : r = m := Option.some.inj hm
              have hlt' : pyStrLt mr.queued_at r.queued_at = false := by
                simpa using hlt
              refine ⟨by simp, h, ?_⟩
              intro q hq hqp
              rcases List.mem_cons.mp hq with rfl | hq'
              · exact pyStrLt_irrefl _
              · exact pyStrLt_false_trans (hmin q hq' hqp) hlt'
      · simp only [selectOldestPending, if_neg h] at hm
        obtain ⟨hmem, hpend, hmin⟩ := ih m hm
        refine ⟨List.mem_cons_of_mem _ hmem, hpend, ?_⟩
        intro q hq hqp
        rcases List.mem_cons.mp hq with rfl | hq'
        · exact absurd hqp h
        · exact hmin q hq' hqp

theorem find?_update_leased (s : List QueueRow) (pid now : String)
    (h : ∃ r ∈ s, r.plan_id = pid) :
    ((s.map (fun r =>
        if r.plan_id = pid then { r with status := "leased", updated_at := now } else r)).find?
      (fun q => q.plan_id == pid)).map (fun q => q.status) = some "leased" := by
  induction s with
  | nil => simp at h
  | cons r rs ih =>
      by_cases hr : r.plan_id = pid
      · simp [List.find?_cons, hr]
      · have hbeq : (r.plan_id == pid) = false := beq_eq_false_iff_ne.mpr hr
        obtain ⟨r', hr', hpid⟩ := h
        rcases List.mem_cons.mp hr' with rfl | hmem
        · exact absurd hpid hr
        · simpa [List.find?_cons, if_neg hr, hbeq] using ih ⟨r', hmem, hpid⟩

/-- Two pending rows with identical `queued_at`; `plan-b` was inserted
first (smaller rowid), `plan-a` has the smaller identifier. -/
def rowPlanB : QueueRow :=
  ⟨"plan-b", "pending", "normal", .pyDict [], "2025-12-01T00:00:00+00:00",
    "2025-12-01T00:00:00+00:00", none, none⟩

def rowPlanA : QueueRow :=
  { rowPlanB with plan_id := "plan-a" }

/-- C3 counterexample: with two pending entries sharing the same
`queued_at`, `lease_next` returns the first-inserted row (`plan-b`), not
the one with the smaller plan identifier (`plan-a`): the SQL orders by
`queued_at` alone, with no tie-break on the identifier. -/
theorem lease_next_tie_counterexample :
    ((leaseNext [rowPlanB, rowPlanA] "2025-12-02T00:00:00+00:00").1.map
        (fun e => e.plan_id)) = some "plan-b" ∧
      rowPlanA.queued_at = rowPlanB.queued_at ∧
      pyStrLt "plan-a" "plan-b" = true := by
  decide

/-- C3 (amended): `lease_next` returns none exactly when no entry is
pending; otherwise it returns an entry of minimal `queued_at` among the
pending rows (the tie between equal `queued_at` values falls to the
first-inserted row, not to the plan identifier) and sets that entry's
status to `leased`. -/
theorem lease_next_spec (s : List QueueRow) (now : String) :
    ((leaseNext s now).1 = none ↔ ∀ r ∈ s, r.status ≠ "pending") ∧
    (∀ e, (leaseNext s now).1 = some e →
      ∃ r, r ∈ s ∧ r.status = "pending" ∧ e = rowToLeased r ∧
        (∀ q ∈ s, q.status = "pending" → pyStrLt q.queued_at r.queued_at = false) ∧
        (((leaseNext s now).2.find? (fun q => q.plan_id == r.plan_id)).map
          (fun q => q.status)) = some "leased") := by
  constructor
  · constructor
    · intro hnone
      cases hsel : selectOldestPending s with
      | none => exact (selectOldestPending_eq_none_iff s).mp hsel
      | some m => simp [leaseNext, hsel] at hnone
    · intro hall
      have hsel : selectOldestPending s = none :=
        (selectOldestPending_eq_none_iff s).mpr hall
      simp [leaseNext, hsel]
  · intro e he
    cases hsel : selectOldestPending s with
    | none => simp [leaseNext, hsel] at he
    | some m =>
        simp only [leaseNext, hsel] at he
        obtain ⟨hmem, hpend, hmin⟩ := selectOldestPending_spec s m hsel
        refine ⟨m, hmem, hpend, (Option.some.inj he).symm, hmin, ?_⟩
        simp only [leaseNext, hsel]
        exact find?_update_leased s m.plan_id now ⟨m, hmem, rfl⟩

/-- A single pending entry for the C3 witness. -/
def soloPending : QueueRow :=
  ⟨"plan-solo", "pending", "normal", .pyDict [], "2025-12-01T00:00:00+00:00",
    "2025-12-01T00:00:00+00:00", none, none⟩

/-- C3 witness: the amended lease specification evaluated on a one-entry
store. -/
theorem lease_next_spec_witness :
    ∃ r, r ∈ [soloPending] ∧ r.status = "pending" ∧
      rowToLeased soloPending = rowToLeased r ∧
      (∀ q ∈ [soloPending], q.status = "pending" →
        pyStrLt q.queued_at r.queued_at = false) ∧
      ((((leaseNext [soloPending] "2025-12-02T00:00:00+00:00").2).find?
        (fun q => q.plan_id == r.plan_id)).map (fun q => q.status)) = some "leased" :=
  (lease_next_spec [soloPending] "2025-12-02T00:00:00+00:00").2
    (rowToLeased soloPending) rfl

/-- The spec example's manifest: one declared artifact whose file was
deleted from disk. -/
def missingArtifactManifest : List (String × PyObj) :=
  [("algorithm", .pyStr "sha256"),
   ("artifacts", .pyList [.pyDict [
      ("label", .pyStr "manifest"),
      ("path", .pyStr "/tmp/dossiers/dossier-x.json"),
      ("hash", .pyStr "abc")]])]

/-- A filesystem with no files. -/
def emptyFs : Filesystem := fun _ => none

/-- A hash oracle that always succeeds (its value is irrelevant to the
missing-file scenario). -/
def constHashFn : HashFn := fun _ _ => .ok "h"

/-- C8: every report produced by `verify_manifest_payload` has
`all_verified` true exactly when both `missing_count` and
`mismatch_count` are zero, and on a manifest declaring one artifact whose
file does not exist the report has `missing_count = 1` and
`all_verified = false`. -/
theorem verify_manifest_aggregate :
    (∀ (manifest : List (String × PyObj)) (bp alg : Option String) (fs : Filesystem)
        (hashFn : HashFn) (report : ManifestVerificationReport),
      verifyManifestPayload manifest bp alg fs hashFn = .ok report →
      (report.all_verified = true ↔
        (report.missing_count = 0 ∧ report.mismatch_count = 0))) ∧
    ((verifyManifestPayload missingArtifactManifest none none emptyFs constHashFn).map
      (fun r => (r.missing_count, r.mismatch_count, r.all_verified)) =
      .ok (1, 0, false)) := by
  constructor
  · intro _ _ _ _ _ report _
    simp [ManifestVerificationReport.all_verified]
  · rfl

/-- The report `verify_manifest_payload` produces on
`missingArtifactManifest` over the empty filesystem. -/
def exampleReport : ManifestVerificationReport :=
  ⟨"sha256",
    [⟨"manifest", some "/tmp/dossiers/dossier-x.json", some "abc", none, false, false,
      none, none⟩],
    []⟩

/-- C8 witness: the aggregate characterization applied to a concretely
produced report. -/
theorem verify_manifest_aggregate_witness :
    exampleReport.all_verified = true ↔
      (exampleReport.missing_count = 0 ∧ exampleReport.mismatch_count = 0) :=
  verify_manifest_aggregate.1 missingArtifactManifest none none emptyFs constHashFn
    exampleReport rfl

/-- Deserialization inverts serialization exactly on plans whose
candidates carry tuple-valued `primary_entities`. -/
theorem from_dict_to_dict_plan_of_tuples (p : DossierPlan)
    (htuple : ∀ c ∈ p.cases, c.primary_entities.isTuple = true) :
    DossierPlan.from_dict p.to_dict = Except.ok p := by
  have hmap₀ : ∀ (l : List DossierCandidate),
      (∀ c ∈ l, c.primary_entities.isTuple = true) → l.map normalizeCandidate = l := by
    intro l
    induction l with
    | nil => intro _; rfl
    | cons c rest ih =>
        intro hl
        simp [normalizeCandidate_of_tuple c (hl c (by simp)),
          ih (fun x hx => hl x (by simp [hx]))]
  rw [from_dict_to_dict_plan]
  congr 1
  cases p
  simp_all

/-- When no entry is pending, the batch loop stops immediately whatever
fuel remains. -/
theorem processBatchGo_no_pending
    (gen : DossierPlan → Except String DossierGenerationResult) (dryRun : Bool)
    (now : String) (fuel : Nat) (s : List QueueRow) (a c f : Nat)
    (outs : List PlanOutcome) (h : ∀ r ∈ s, r.status ≠ "pending") :
    processBatchGo gen dryRun now fuel s a c f outs = (.ok ⟨a, c, f, dryRun, outs⟩, s) := by
  cases fuel with
  | zero => rfl
  | succ n =>
      have hsel : selectOldestPending s = none :=
        (selectOldestPending_eq_none_iff s).mpr h
      simp [processBatchGo, leaseNext, hsel]

/-- C10: deserialization of the leased payload happens before the
per-plan exception handler, so a leased payload that `from_dict` cannot
decode makes `process_batch` itself raise: the loop stops, the failing
entry is left in status `leased` (neither failed nor reset), and the
other pending entry is untouched. -/
theorem process_batch_bad_payload (badPayload : PyObj) (e : PyErr) (row2 : QueueRow)
    (gen : DossierPlan → Except String DossierGenerationResult)
    (prio now1 now3 : String) (batch : Nat)
    (htruthy : badPayload.isTruthy = true)
    (hbad : DossierPlan.from_dict badPayload = .error e)
    (hpend2 : row2.status = "pending")
    (hqa : pyStrLt row2.queued_at now1 = false)
    (hid : row2.plan_id ≠ "bad-plan")
    (hb : 1 ≤ batch) :
    processBatch gen batch false now3
        [⟨"bad-plan", "pending", prio, badPayload, now1, now1, none, none⟩, row2] =
      (.error e,
        [⟨"bad-plan", "leased", prio, badPayload, now1, now3, none, none⟩, row2]) := by
  obtain ⟨b, rfl⟩ : ∃ b, batch = b + 1 := ⟨batch - 1, by omega⟩
  simp [processBatch, processBatchGo, leaseNext, selectOldestPending, hpend2, hqa,
    rowToLeased, htruthy, hbad, hid]

/-- A well-formed second pending row for the C10 witness. -/
def pendingRow2 : QueueRow :=
  ⟨"plan-two", "pending", "normal", samplePlan.to_dict, "2025-12-02T00:00:00+00:00",
    "2025-12-02T00:00:00+00:00", none, none⟩

/-- C10 witness: a truthy payload lacking the required `plan_id` key
raises `KeyError("plan_id")` and the batch stops with the entry leased. -/
theorem process_batch_bad_payload_witness :
    processBatch (fun _ => .error "unused") 2 false "2025-12-03T00:00:00+00:00"
        [⟨"bad-plan", "pending", "normal", .pyDict [("jurisdiction_key", .pyStr "US-CA")],
          "2025-12-01T00:00:00+00:00", "2025-12-01T00:00:00+00:00", none, none⟩,
          pendingRow2] =
      (.error (.keyError "plan_id"),
        [⟨"bad-plan", "leased", "normal", .pyDict [("jurisdiction_key", .pyStr "US-CA")],
          "2025-12-01T00:00:00+00:00", "2025-12-03T00:00:00+00:00", none, none⟩,
          pendingRow2]) :=
  process_batch_bad_payload (.pyDict [("jurisdiction_key", .pyStr "US-CA")])
    (.keyError "plan_id") pendingRow2 (fun _ => .error "unused")
    "normal" "2025-12-01T00:00:00+00:00" "2025-12-03T00:00:00+00:00" 2
    (by decide) (by decide) rfl (by decide) (by decide) (by decide)

/-- C1: `generate_from_plan` never completes.  The call at
dossier_pipeline.py lines 143-148 passes `generated_at=` and
`relative_to=` to `generate_signature_manifest`, whose signature accepts
only `entries` and `algorithm`, so Python raises `TypeError` at the call,
after the manifest document has been written but before the signature
manifest is computed or written and before any result is returned.  This
contradicts the repository's own tests, which assert the call succeeds
and both files exist. -/
theorem generate_from_plan_raises_type_error (cfg : DossierGeneratorConfig)
    (plan : DossierPlan) (ts : Int) (fs : List (String × Option PyObj)) :
    (generateFromPlan cfg plan ts fs).1 =
      .error (.typeError
        "generate_signature_manifest() got an unexpected keyword argument 'generated_at'") ∧
    (cfg.artifact_dir ++ "/" ++ plan.plan_id ++ ".json") ∈
      (generateFromPlan cfg plan ts fs).2.map Prod.fst := by
  constructor
  · rfl
  · obtain ⟨pre, payload, h⟩ :
        ∃ pre payload, (generateFromPlan cfg plan ts fs).2 =
          pre ++ [(cfg.artifact_dir ++ "/" ++ plan.plan_id ++ ".json", some payload)] :=
      ⟨_, _, rfl⟩
    rw [h]
    simp

/-- C4: over a queue holding exactly two pending plans (the first enqueued
no later than the second), a non-dry-run batch of size at least 2 with a
generator that succeeds on the first leased plan and raises on the second
reports `processed = 2, completed = 1, failed = 1`; the first entry ends
`completed` carrying the generator's warnings, and the second ends
`failed` with the exception's message stored as its error. -/
theorem process_batch_two_plans (p1 p2 : DossierPlan)
    (gen : DossierPlan → Except String DossierGenerationResult)
    (r1 : DossierGenerationResult) (msg : String)
    (prio now1 now2 now3 : String) (batch : Nat)
    (hid : p1.plan_id ≠ p2.plan_id)
    (ht : pyStrLt now2 now1 = false)
    (htup1 : ∀ c ∈ p1.cases, c.primary_entities.isTuple = true)
    (htup2 : ∀ c ∈ p2.cases, c.primary_entities.isTuple = true)
    (hg1 : gen p1 = .ok r1) (hg2 : gen p2 = .error msg) (hb : 2 ≤ batch) :
    ((processBatch gen batch false now3
        (enqueuePlan (enqueuePlan [] p1 prio now1) p2 prio now2)).1.map
      (fun sm => (sm.processed, sm.completed, sm.failed, sm.dry_run)) =
        .ok (2, 1, 1, false)) ∧
    ((getPlan (processBatch gen batch false now3
        (enqueuePlan (enqueuePlan [] p1 prio now1) p2 prio now2)).2 p1.plan_id).map
      (fun en => (en.status, en.error, en.warnings)) =
        some ("completed", none, r1.warnings)) ∧
    ((getPlan (processBatch gen batch false now3
        (enqueuePlan (enqueuePlan [] p1 prio now1) p2 prio now2)).2 p2.plan_id).map
      (fun en => (en.status, en.error)) = some ("failed", some msg)) := by
  obtain ⟨b, rfl⟩ : ∃ b, batch = b + 1 + 1 := ⟨batch - 2, by omega⟩
  have hid2 : p2.plan_id ≠ p1.plan_id := fun h => hid h.symm
  have hfd1 := from_dict_to_dict_plan_of_tuples p1 htup1
  have hfd2 := from_dict_to_dict_plan_of_tuples p2 htup2
  have hbeq21 : (p2.plan_id == p1.plan_id) = false := beq_eq_false_iff_ne.mpr hid2
  have hbeq12 : (p1.plan_id == p2.plan_id) = false := beq_eq_false_iff_ne.mpr hid
  have htrue : ∀ p : DossierPlan, p.to_dict.isTruthy = true := fun _ => rfl
  have hmain : processBatch gen (b + 1 + 1) false now3
      (enqueuePlan (enqueuePlan [] p1 prio now1) p2 prio now2) =
      (.ok ⟨2, 1, 1, false,
          [.completedO r1.plan_id r1.artifacts r1.warnings, .failedO p2.plan_id msg]⟩,
        [⟨p1.plan_id, "completed", prio, p1.to_dict, now1, now3, none, some r1.warnings⟩,
          ⟨p2.plan_id, "failed", prio, p2.to_dict, now2, now3, some msg, none⟩]) := by
    simp [processBatch, processBatchGo, enqueuePlan, enqueueRows, mkQueueRow,
      leaseNext, selectOldestPending, rowToLeased, markComplete, markFailed,
      updateStatus, hid, hid2, ht, htrue, hfd1, hfd2, hg1, hg2,
      processBatchGo_no_pending]
  refine ⟨?_, ?_, ?_⟩ <;> rw [hmain] <;>
    simp [getPlan, rowToStored, List.find?, hbeq21, hbeq12, Except.map]

/-- A second plan with a distinct identifier for the C4 witness. -/
def samplePlan2 : DossierPlan :=
  { samplePlan with plan_id := "dossier-us-ny-20251203-01", jurisdiction_key := "US-NY" }

def witnessGenResult : DossierGenerationResult :=
  ⟨"dossier-us-ca-20251203-01", ["dossier-us-ca-20251203-01.json"], []⟩

/-- A generator that succeeds on the first witness plan and raises
`generation failed` on everything else. -/
def witnessGen : DossierPlan → Except String DossierGenerationResult :=
  fun p =>
    if p.plan_id = "dossier-us-ca-20251203-01" then .ok witnessGenResult
    else .error "generation failed"

/-- C4 witness: the two-plan batch evaluated on concrete plans, times and
generator. -/
theorem process_batch_two_plans_witness :
    ((processBatch witnessGen 2 false "2025-12-03T12:00:00+00:00"
        (enqueuePlan (enqueuePlan [] samplePlan "normal" "2025-12-03T10:00:00+00:00")
          samplePlan2 "normal" "2025-12-03T11:00:00+00:00")).1.map
      (fun sm => (sm.processed, sm.completed, sm.failed, sm.dry_run)) =
        .ok (2, 1, 1, false)) ∧
    ((getPlan (processBatch witnessGen 2 false "2025-12-03T12:00:00+00:00"
        (enqueuePlan (enqueuePlan [] samplePlan "normal" "2025-12-03T10:00:00+00:00")
          samplePlan2 "normal" "2025-12-03T11:00:00+00:00")).2 samplePlan.plan_id).map
      (fun en => (en.status, en.error, en.warnings)) = some ("completed", none, [])) ∧
    ((getPlan (processBatch witnessGen 2 false "2025-12-03T12:00:00+00:00"
        (enqueuePlan (enqueuePlan [] samplePlan "normal" "2025-12-03T10:00:00+00:00")
          samplePlan2 "normal" "2025-12-03T11:00:00+00:00")).2 samplePlan2.plan_id).map
      (fun en => (en.status, en.error)) = some ("failed", some "generation failed")) :=
  process_batch_two_plans samplePlan samplePlan2 witnessGen witnessGenResult
    "generation failed" "normal" "2025-12-03T10:00:00+00:00" "2025-12-03T11:00:00+00:00"
    "2025-12-03T12:00:00+00:00" 2 (by decide) (by decide) (by decide) (by decide)
    rfl rfl (by decide)
